import Mathlib

/-!
Shallow embedding of the connection-supervision core of the Chat-with-GUI
client (src/chat_tools.py, src/main.py, src/minechat.py, src/registration.py).

Asynchronous I/O is modelled by explicit event traces: each coroutine body
becomes a pure function from its inputs (queue items, lines read from the
socket, exception outcomes injected by the environment) to the list of
observable effects it performs (queue puts, socket writes/reads, sleeps, file
writes) plus its exit condition (normal return or a propagated exception).
-/

namespace ChatGui

/-- Lifecycle of one transport channel, as published on the status queue
(gui.ReadConnectionStateChanged / SendingConnectionStateChanged). -/
inductive ChannelState
  | initiated
  | established
  | closed
deriving DecidableEq, Repr

/-- One item on the status-updates queue: a channel-state transition for the
read side or the send side, or a NicknameReceived event. -/
inductive StatusEvent
  | readState (s : ChannelState)
  | sendState (s : ChannelState)
  | nicknameReceived (n : String)
deriving DecidableEq, Repr

/-- Exceptions that cross task boundaries in the source. -/
inductive Exc
  | invalidToken
  | connectionError
  | gaierror
  | exceptionGroup
  | cancelledError
  | jsonDecodeError
  | keyError
  | timeoutError
deriving DecidableEq, Repr

/-- An observable effect performed by one of the coroutines. -/
inductive Ev
  | statusPut (s : StatusEvent)
  | msgPut (m : String)
  | savePut (m : String)
  | watchdogPut (tag : String)
  | sendQueuePut (m : String)
  | wireWrite (line : String)
  | wireRead
  | showInfo (title text : String)
  | logMsg
  | sleepFor (n : Nat)
  | tokenFileWrite (s : String)
  | writerClose
deriving DecidableEq, Repr

/-- Is this event a Closed-state publication on either channel? -/
def isClosedStatus : Ev → Bool
  | .statusPut (.readState .closed) => true
  | .statusPut (.sendState .closed) => true
  | _ => false

/-- Is this event a read of one line from the socket? -/
def isWireRead : Ev → Bool
  | .wireRead => true
  | _ => false

/-- Is this event a write of the token-store file? -/
def isTokenFileWrite : Ev → Bool
  | .tokenFileWrite _ => true
  | _ => false

/-- Is this event a publication to the display sink (messages_queue)? -/
def isDisplayPut : Ev → Bool
  | .msgPut _ => true
  | _ => false

/-- The tags of the watchdog-queue events inside a trace. -/
def watchdogTags (evs : List Ev) : List String :=
  evs.filterMap fun ev =>
    match ev with
    | .watchdogPut tag => some tag
    | _ => none

/-! ## 4.1 Line transport: send_message (src/chat_tools.py lines 57-61)

`message.replace(r"\n", " ")` replaces every non-overlapping occurrence of the
two-character sequence backslash-n, scanning left to right, then the sanitized
text plus a single newline is written and flushed. -/

/-- Python `message.replace("\x5cn", " ")` on the character list: replace each
left-to-right non-overlapping occurrence of backslash followed by `n` with one
space. -/
def sanitize : List Char → List Char
  | [] => []
  | [c] => [c]
  | c1 :: c2 :: rest =>
      if c1 = '\\' ∧ c2 = 'n' then ' ' :: sanitize rest
      else c1 :: sanitize (c2 :: rest)

/-- The bytes put on the wire by `send_message`: sanitized payload plus exactly
one newline character. -/
def send_message (m : List Char) : List Char :=
  sanitize m ++ ['\n']

/-- Wire line for a `String` payload, as written by `send_message`. -/
def sendWire (s : String) : String :=
  String.mk (send_message s.data)

/-- Does the character list contain the two-character literal backslash-n? -/
def hasLiteralBackslashN : List Char → Bool
  | c1 :: c2 :: rest => (c1 = '\\' && c2 = 'n') || hasLiteralBackslashN (c2 :: rest)
  | _ => false

/-- The first character of a sanitized nonempty list is either the original
first character or the space that replaced a leading backslash-n pair. -/
theorem sanitize_head (x : Char) (r : List Char) :
    (sanitize (x :: r)).head? = some x ∨ (sanitize (x :: r)).head? = some ' ' := by
  cases r with
  | nil => left; rfl
  | cons c2 rest =>
      by_cases h : x = '\\' ∧ c2 = 'n'
      · right; simp [sanitize, h]
      · left; simp [sanitize, h]

/-- After sanitizing, no literal backslash-n pair remains. -/
theorem sanitize_no_backslash_n (m : List Char) :
    hasLiteralBackslashN (sanitize m) = false := by
  induction m using sanitize.induct with
  | case1 => rfl
  | case2 c => rfl
  | case3 c1 c2 rest h ih =>
      rw [sanitize, if_pos h]
      cases hs : sanitize rest with
      | nil => rfl
      | cons y ys =>
          rw [hs] at ih
          simp [hasLiteralBackslashN, ih]
  | case4 c1 c2 rest h ih =>
      rw [sanitize, if_neg h]
      cases hs : sanitize (c2 :: rest) with
      | nil => rfl
      | cons y ys =>
          rw [hs] at ih
          have hy : y = c2 ∨ y = ' ' := by
            rcases sanitize_head c2 rest with hh | hh <;> rw [hs] at hh <;>
              simp at hh
            · exact Or.inl hh
            · exact Or.inr hh
          simp only [hasLiteralBackslashN, ih, Bool.or_false]
          rcases hy with hy | hy
          · subst hy
            by_cases hb : c1 = '\\'
            · have hn : ¬ (y = 'n') := fun hn => h ⟨hb, hn⟩
              simp [hn]
            · simp [hb]
          · subst hy
            simp

/-! ## 4.3 Heartbeat generator: ping_pong (src/main.py lines 24-27)

Every `ping_delay` time units, `sending_queue.put_nowait('')` enqueues one
empty outbound message. -/

/-- The payload the heartbeat generator enqueues: the empty string. -/
def heartbeatPayload : String := ""

/-- `n` iterations of the `ping_pong` loop: each enqueues the empty message
then sleeps for `ping_delay`. -/
def ping_pong (ping_delay : Nat) : Nat → List Ev
  | 0 => []
  | n + 1 => Ev.sendQueuePut heartbeatPayload :: Ev.sleepFor ping_delay ::
      ping_pong ping_delay n

/-! ## 4.6 Outbound sender loop body (src/chat_tools.py lines 133-138)

Per dequeued message: put the local echo on messages_queue, `send_message` the
line, put the fixed tag 'Message sent' on the watchdog queue, `sleep(0)`. The
string written to messages_queue carries the current wall-clock time, modelled
here by the `now` parameter. -/

/-- The local-echo display record for a dequeued message. -/
def echoLine (now m : String) : String :=
  "[" ++ now ++ "] Вы: " ++ m ++ "\n"

/-- One iteration of the sender's `while True` loop for the dequeued message
`m` at wall-clock time `now`. -/
def senderStep (now m : String) : List Ev :=
  [ Ev.msgPut (echoLine now m),
    Ev.wireWrite (sendWire m),
    Ev.watchdogPut "Message sent",
    Ev.sleepFor 0 ]

/-! ## 4.2 Authentication handshake (src/chat_tools.py lines 74-131)

`authorize_user` sends the token line, reads the reply line, and runs
`json.loads` on it. The environment's reply is modelled as the decoded outcome
of that parse: a decode failure, a JSON null, or a JSON object given as a
field association list. `handle_message_sending`'s pre-loop section then
drives the whole handshake. -/

/-- The decoded outcome of `json.loads` on the server's handshake reply. -/
inductive JsonReply
  | decodeFail
  | jnull
  | jobj (fields : List (String × String))
deriving DecidableEq, Repr

/-- `authorize_user` (src/chat_tools.py lines 74-81): write the token line,
read one reply line, log it, `json.loads` it. Returns the trace and either the
decoded payload or the uncaught `json.JSONDecodeError`. -/
def authorize_user (token : String) (reply : JsonReply) :
    List Ev × Except Exc JsonReply :=
  ([Ev.wireWrite (sendWire token), Ev.wireRead, Ev.logMsg],
   match reply with
   | .decodeFail => .error .jsonDecodeError
   | r => .ok r)

/-- The handshake part of `handle_message_sending` (src/chat_tools.py lines
96-131): publish INITIATED and ESTABLISHED on the sending channel, read and
log the greeting, then
* no token: log, show the InvalidToken messagebox, raise `InvalidToken`;
* token present: `authorize_user`; a `null` payload logs, shows the messagebox
  and raises `InvalidToken`; otherwise `payload["nickname"]` is looked up
  (an absent key raises an uncaught `KeyError`), the nickname status, the
  login display line, and the 'Authorization done' watchdog tag are pushed. -/
def handshake (userToken : Option String) (reply : JsonReply) :
    List Ev × Except Exc String :=
  let pre := [Ev.statusPut (.sendState .initiated),
              Ev.statusPut (.sendState .established),
              Ev.wireRead, Ev.logMsg]
  match userToken with
  | none =>
      (pre ++ [Ev.logMsg, Ev.showInfo "InvalidToken" "Токен не обнаружен"],
       .error .invalidToken)
  | some tok =>
      let auth := authorize_user tok reply
      match auth.snd with
      | .error e => (pre ++ auth.fst, .error e)
      | .ok .jnull =>
          (pre ++ auth.fst ++
            [Ev.logMsg, Ev.showInfo "InvalidToken" "Токен недействителен"],
           .error .invalidToken)
      | .ok (.jobj fields) =>
          match fields.lookup "nickname" with
          | none => (pre ++ auth.fst, .error .keyError)
          | some nick =>
              (pre ++ auth.fst ++
                [Ev.statusPut (.nicknameReceived nick),
                 Ev.msgPut ("Вы авторизованы как " ++ nick ++ "\n"),
                 Ev.watchdogPut "Authorization done",
                 Ev.logMsg],
               .ok nick)
      | .ok .decodeFail => (pre ++ auth.fst, .error .jsonDecodeError)

/-! ## register_user (src/chat_tools.py lines 84-93)

Reads one line (logged and discarded), sends the display name, reads back the
assigned record line, logs it, and writes the decoded record to the token
store. The record line the server returns is the `record` parameter. -/

/-- Trace of one `register_user` call with display name `userName` when the
server's record reply line is `record`. -/
def register_user (userName record : String) : List Ev :=
  [ Ev.wireRead, Ev.logMsg,
    Ev.wireWrite (sendWire userName),
    Ev.wireRead, Ev.logMsg,
    Ev.tokenFileWrite record ]

/-! ## 4.5 Inbound reader: read_messages (src/chat_tools.py lines 141-167)

The loop runs `while not reader.at_eof()`. Its per-iteration input is either a
successfully read line or an exception raised by the iteration body; the end
of the input list models end-of-stream (`at_eof()` turning true). The body
forwards the time-stamped line to messages_queue and save_messages_queue and
pushes the 'New message in chat' watchdog tag; `CancelledError` closes the
writer and re-raises; every other exception is logged and followed by
`sleep(3)`, and the loop continues. -/

/-- The per-iteration outcome the environment feeds the reader loop. -/
inductive ReadItem
  | line (s : String)
  | exc (e : Exc)
deriving DecidableEq, Repr

/-- How the reader coroutine ends. -/
inductive ReaderExit
  | normal
  | reraised (e : Exc)
deriving DecidableEq, Repr

/-- The display line the reader builds for a received message at time `now`. -/
def stampLine (now s : String) : String :=
  "[" ++ now ++ "] " ++ s

/-- The `while not reader.at_eof()` loop of `read_messages`: trace and exit
condition over the list of per-iteration outcomes. -/
def read_messages_loop (now : String) : List ReadItem → List Ev × ReaderExit
  | [] => ([], .normal)
  | .line s :: rest =>
      let r := read_messages_loop now rest
      (Ev.msgPut (stampLine now s) :: Ev.savePut (stampLine now s) ::
         Ev.watchdogPut "New message in chat" :: Ev.sleepFor 0 :: r.fst,
       r.snd)
  | .exc e :: rest =>
      if e = .cancelledError then
        ([Ev.logMsg, Ev.writerClose], .reraised e)
      else
        let r := read_messages_loop now rest
        (Ev.logMsg :: Ev.sleepFor 3 :: r.fst, r.snd)

/-- `read_messages` entire body: publish INITIATED, open the connection,
publish ESTABLISHED, then run the loop. -/
def read_messages (now : String) (items : List ReadItem) :
    List Ev × ReaderExit :=
  let r := read_messages_loop now items
  (Ev.statusPut (.readState .initiated) :: Ev.statusPut (.readState .established)
     :: r.fst,
   r.snd)

/-! ## 4.4 Liveness watchdog: watch_for_connection (src/main.py lines 88-98)

Each iteration of the `while True` loop opens a fresh `timeout(T)` context and
waits for the next watchdog-queue item inside it. The arrival times of the
queue items are modelled as absolute times; an iteration that starts at time
`last` succeeds when the next item arrives strictly before `last + T` (a fresh
full window, never cumulative), logs it, and the next window starts at that
arrival; otherwise `TimeoutError` fires with `cm.expired`, the elapse is
logged, and `ConnectionError` is raised. -/

/-- The watchdog loop over the absolute arrival times of queue items, starting
its current window at time `last`. Returns the trace and `some connectionError`
if some window elapsed, `none` if every modelled item arrived in time. -/
def watch_for_connection (T : Nat) : Nat → List Nat → List Ev × Option Exc
  | _, [] => ([], none)
  | last, t :: rest =>
      if t < last + T then
        let r := watch_for_connection T t rest
        (Ev.logMsg :: r.fst, r.snd)
      else
        ([Ev.logMsg], some .connectionError)

/-- Modelled from the spec: the watchdog as §4.4 and §8 word it — a deadline
that an arriving event at time `t < deadline` resets to `t + T`, and that
fires fatally when an event misses the deadline. -/
def specDeadlineRun (T : Nat) : Nat → List Nat → Bool
  | _, [] => false
  | deadline, t :: rest =>
      if t < deadline then specDeadlineRun T (t + T) rest
      else true

/-! ## 4.7 Connection supervisor: handle_connection (src/main.py lines 30-85)

The `while True` loop runs the task group; each group run ends with one
propagated exception (the group result). `except (ExceptionGroup,
ConnectionError, socket.gaierror)` publishes CLOSED on both channel states,
logs, sleeps 3 and loops; any other exception (in particular `InvalidToken`)
escapes the loop. `asyncio.run(main())` at module scope catches `InvalidToken`
and exits the process cleanly. -/

/-- Which group-level exceptions the supervisor's `except` clause catches. -/
def isTransientCaught : Exc → Bool
  | .exceptionGroup => true
  | .connectionError => true
  | .gaierror => true
  | _ => false

/-- The events of one pass through the supervisor's `except` handler:
CLOSED on the read channel, CLOSED on the send channel, the log line, and the
fixed 3-unit backoff sleep. -/
def closingBlock : List Ev :=
  [ Ev.statusPut (.readState .closed),
    Ev.statusPut (.sendState .closed),
    Ev.logMsg,
    Ev.sleepFor 3 ]

/-- The supervisor's `while True` loop over the sequence of group outcomes:
each caught outcome appends one `closingBlock` and loops; an uncaught outcome
stops the loop and propagates (`some e`). `none` means every modelled outcome
was absorbed and the loop is still running. -/
def handle_connection : List Exc → List Ev × Option Exc
  | [] => ([], none)
  | e :: rest =>
      if isTransientCaught e then
        let r := handle_connection rest
        (closingBlock ++ r.fst, r.snd)
      else
        ([], some e)

/-- What happens to an exception that escapes `handle_connection`: the
`if __name__ == '__main__'` wrapper catches `InvalidToken` and the process
exits; anything else crashes the process. -/
inductive ProcessOutcome
  | running
  | exitClean
  | crashed (e : Exc)
deriving DecidableEq, Repr

/-- The module-scope wrapper around `asyncio.run(main())` in src/main.py lines
151-155. -/
def mainProcess (loopResult : Option Exc) : ProcessOutcome :=
  match loopResult with
  | none => .running
  | some .invalidToken => .exitClean
  | some e => .crashed e

/-! ## Helper lemmas -/

/-- The watchdog loop raises exactly when the spec-worded deadline automaton
fires: an iteration starting at `last` with a fresh window of `T` is the same
as a deadline of `last + T` that each arrival resets to `t + T`. -/
theorem watchdog_refines_deadline (T last : Nat) (ts : List Nat) :
    (watch_for_connection T last ts).snd =
      (if specDeadlineRun T (last + T) ts then some Exc.connectionError
       else none) := by
  induction ts generalizing last with
  | nil => rfl
  | cons t rest ih =>
      by_cases h : t < last + T
      · simp [watch_for_connection, specDeadlineRun, h, ih]
      · simp [watch_for_connection, specDeadlineRun, h]

/-- Every event the watchdog emits is a log line. -/
theorem watchdog_trace_logs (T last : Nat) (ts : List Nat) :
    ∀ ev ∈ (watch_for_connection T last ts).fst, ev = Ev.logMsg := by
  induction ts generalizing last with
  | nil => intro ev h; cases h
  | cons t rest ih =>
      intro ev hev
      by_cases h : t < last + T
      · simp only [watch_for_connection, if_pos h, List.mem_cons] at hev
        rcases hev with h1 | h1
        · exact h1
        · exact ih t ev h1
      · simp only [watch_for_connection, if_neg h, List.mem_cons,
          List.not_mem_nil, or_false] at hev
        exact hev

/-- A run of the supervisor over caught outcomes only: one closing block per
outcome, and the loop keeps running. -/
theorem handle_connection_all_caught (outcomes : List Exc)
    (h : ∀ e ∈ outcomes, isTransientCaught e = true) :
    handle_connection outcomes =
      ((outcomes.map fun _ => closingBlock).flatten, none) := by
  induction outcomes with
  | nil => rfl
  | cons e rest ih =>
      have he : isTransientCaught e = true := h e (List.mem_cons_self e rest)
      have hr := ih fun x hx => h x (List.mem_cons_of_mem e hx)
      simp [handle_connection, he, hr]

/-- The reader loop only ever re-raises CancelledError. -/
theorem reader_reraises_only_cancelled (now : String) (items : List ReadItem) :
    ∀ ex, (read_messages_loop now items).snd = ReaderExit.reraised ex →
      ex = Exc.cancelledError := by
  induction items with
  | nil => intro ex h; cases h
  | cons item rest ih =>
      intro ex h
      cases item with
      | line s =>
          simp only [read_messages_loop] at h
          exact ih ex h
      | exc e =>
          by_cases hc : e = Exc.cancelledError
          · simp only [read_messages_loop, if_pos hc] at h
            injection h with h
            exact h ▸ hc
          · simp only [read_messages_loop, if_neg hc] at h
            exact ih ex h

/-! ## Claims -/

/-- Claim C9: for every outbound payload, every occurrence of the
two-character literal backslash-n sequence is replaced by a single space, and
the transmitted bytes are the sanitized payload followed by exactly one
newline (src/chat_tools.py lines 57-61). -/
theorem c9_sanitized_single_line_framing (m : List Char) :
    send_message m = sanitize m ++ ['\n']
    ∧ hasLiteralBackslashN (sanitize m) = false :=
  ⟨rfl, sanitize_no_backslash_n m⟩

/-- Claim C4: the watchdog's behaviour over any timeout window and event
stream coincides with the spec's deadline automaton (an event at time t before
the deadline logs and resets the deadline to the full window t + T, never
cumulative), a missed window raises ConnectionError and nothing else, and
ConnectionError is caught by the supervisor's retry handler, so the expiry is
fatal to the attempt, not the process (src/main.py lines 88-98). -/
theorem c4_watchdog_resets_full_window (T start : Nat) (times : List Nat) :
    ((watch_for_connection T start times).snd = some Exc.connectionError ↔
        specDeadlineRun T (start + T) times = true)
    ∧ ((watch_for_connection T start times).snd = none ↔
        specDeadlineRun T (start + T) times = false)
    ∧ (∀ ev ∈ (watch_for_connection T start times).fst, ev = Ev.logMsg)
    ∧ isTransientCaught Exc.connectionError = true := by
  refine ⟨?_, ?_, watchdog_trace_logs T start times, rfl⟩ <;>
    rw [watchdog_refines_deadline] <;>
    by_cases h : specDeadlineRun T (start + T) times <;> simp [h]

/-- Claim C5: every transient group failure (ConnectionError, gaierror,
ExceptionGroup) makes the supervisor publish Closed on both channel states,
log, and sleep exactly one fixed 3-unit backoff, then loop; a run of any
number of such failures is absorbed (one closing block each), never propagates,
and leaves the process running — no retry ceiling (src/main.py lines 44-85). -/
theorem c5_unbounded_backoff_retry (outcomes : List Exc)
    (h : ∀ e ∈ outcomes, e = Exc.connectionError ∨ e = Exc.gaierror ∨
        e = Exc.exceptionGroup) :
    handle_connection outcomes = ((outcomes.map fun _ => closingBlock).flatten, none)
    ∧ mainProcess (handle_connection outcomes).snd = ProcessOutcome.running
    ∧ closingBlock = [Ev.statusPut (.readState .closed),
        Ev.statusPut (.sendState .closed), Ev.logMsg, Ev.sleepFor 3] := by
  have hc : ∀ e ∈ outcomes, isTransientCaught e = true := by
    intro e he
    rcases h e he with h1 | h1 | h1 <;> subst h1 <;> rfl
  have heq := handle_connection_all_caught outcomes hc
  refine ⟨heq, ?_, rfl⟩
  rw [heq]
  rfl

/-- Witness for C5 at a concrete run of three transient failures. -/
theorem c5_unbounded_backoff_retry_witness :
    handle_connection [Exc.connectionError, Exc.gaierror, Exc.exceptionGroup] =
      (([Exc.connectionError, Exc.gaierror, Exc.exceptionGroup].map
          fun _ => closingBlock).flatten, none)
    ∧ mainProcess (handle_connection
        [Exc.connectionError, Exc.gaierror, Exc.exceptionGroup]).snd =
      ProcessOutcome.running
    ∧ closingBlock = [Ev.statusPut (.readState .closed),
        Ev.statusPut (.sendState .closed), Ev.logMsg, Ev.sleepFor 3] :=
  c5_unbounded_backoff_retry _ (by decide)

/-- Claim C1: when the handshake raises InvalidToken, the supervisor's except
clause does not catch it: the loop stops at that attempt (the trace holds the
closing blocks of the earlier transient failures and nothing after, so the
retry path is never re-entered and no later attempt can resubmit the token),
the exception propagates out of handle_connection, and the module-scope
handler ends the process cleanly (src/main.py lines 44-85 and 151-155). -/
theorem c1_invalid_token_ends_process (pre : List Exc)
    (h : ∀ e ∈ pre, isTransientCaught e = true) :
    handle_connection (pre ++ [Exc.invalidToken]) =
      ((pre.map fun _ => closingBlock).flatten, some Exc.invalidToken)
    ∧ isTransientCaught Exc.invalidToken = false
    ∧ mainProcess (handle_connection (pre ++ [Exc.invalidToken])).snd =
        ProcessOutcome.exitClean := by
  have key : handle_connection (pre ++ [Exc.invalidToken]) =
      ((pre.map fun _ => closingBlock).flatten, some Exc.invalidToken) := by
    induction pre with
    | nil => rfl
    | cons e rest ih =>
        have he : isTransientCaught e = true := h e (List.mem_cons_self e rest)
        have hr := ih fun x hx => h x (List.mem_cons_of_mem e hx)
        simp [handle_connection, he, hr, List.flatten]
  refine ⟨key, rfl, ?_⟩
  rw [key]
  rfl

/-- Witness for C1: one transient failure followed by the InvalidToken
attempt. -/
theorem c1_invalid_token_ends_process_witness :
    handle_connection ([Exc.connectionError] ++ [Exc.invalidToken]) =
      (([Exc.connectionError].map fun _ => closingBlock).flatten,
        some Exc.invalidToken)
    ∧ isTransientCaught Exc.invalidToken = false
    ∧ mainProcess (handle_connection
        ([Exc.connectionError] ++ [Exc.invalidToken])).snd =
      ProcessOutcome.exitClean :=
  c1_invalid_token_ends_process _ (by decide)

/-- Claim C10: inside the reader's per-line loop, every exception other than
CancelledError (ConnectionError included) is caught by the bare except, logged
and followed by a 3-second sleep, after which the loop continues with the
remaining input; consequently the loop's exit is a re-raise only for
CancelledError (src/chat_tools.py lines 153-167). -/
theorem c10_reader_catch_all_continues (now : String) (e : Exc)
    (rest : List ReadItem) (h : e ≠ Exc.cancelledError) :
    read_messages_loop now (ReadItem.exc e :: rest) =
      (Ev.logMsg :: Ev.sleepFor 3 :: (read_messages_loop now rest).fst,
       (read_messages_loop now rest).snd)
    ∧ ∀ items ex, (read_messages_loop now items).snd = ReaderExit.reraised ex →
        ex = Exc.cancelledError :=
  ⟨by simp [read_messages_loop, h],
   fun items => reader_reraises_only_cancelled now items⟩

/-- Witness for C10: a ConnectionError inside the loop body is absorbed and
the loop continues to the end of the stream. -/
theorem c10_reader_catch_all_continues_witness :
    read_messages_loop "t" (ReadItem.exc Exc.connectionError :: []) =
      (Ev.logMsg :: Ev.sleepFor 3 :: (read_messages_loop "t" []).fst,
       (read_messages_loop "t" []).snd)
    ∧ ∀ items ex, (read_messages_loop "t" items).snd = ReaderExit.reraised ex →
        ex = Exc.cancelledError :=
  c10_reader_catch_all_continues "t" Exc.connectionError [] (by decide)

/-- Counterexample to claim C2: at end-of-stream (one line, then at_eof turns
true) the reader exits normally — it does not propagate ConnectionError and
publishes no Closed state, so no teardown is triggered by end-of-stream. -/
theorem c2_counterexample_eof_is_silent :
    (read_messages "t" [ReadItem.line "hello"]).snd = ReaderExit.normal
    ∧ (read_messages "t" [ReadItem.line "hello"]).snd ≠
        ReaderExit.reraised Exc.connectionError
    ∧ (read_messages "t" [ReadItem.line "hello"]).fst.filter isClosedStatus
        = [] := by
  refine ⟨rfl, by decide, rfl⟩

/-- Claim C2 as amended: when the inbound channel reaches end-of-stream the
reader's while-loop exits normally and the coroutine returns; no
ConnectionError is raised for the attempt and the reader publishes no Closed
state, so end-of-stream alone cancels no sibling task and triggers no
supervisor retry (src/chat_tools.py lines 141-167). -/
theorem c2_eof_exits_reader_normally (now : String) (ls : List String) :
    (read_messages now (ls.map ReadItem.line)).snd = ReaderExit.normal
    ∧ (read_messages now (ls.map ReadItem.line)).fst.filter isClosedStatus
        = [] := by
  have key : ∀ xs : List String,
      (read_messages_loop now (xs.map ReadItem.line)).snd = ReaderExit.normal
      ∧ (read_messages_loop now (xs.map ReadItem.line)).fst.filter
          isClosedStatus = [] := by
    intro xs
    induction xs with
    | nil => exact ⟨rfl, rfl⟩
    | cons x rest ih =>
        refine ⟨?_, ?_⟩ <;>
          simp [read_messages_loop, isClosedStatus, ih.1, ih.2]
  refine ⟨(key ls).1, ?_⟩
  simp [read_messages, isClosedStatus, (key ls).2]

/-- Counterexample to claim C3: the sender's loop iteration reads back no
acknowledgment line at all, and the liveness tag pushed for a user message is
the same fixed tag as for an empty heartbeat — purposes are not
distinguished. -/
theorem c3_counterexample_no_ack_no_tagging :
    ((senderStep "t" "hi").filter isWireRead).length = 0
    ∧ watchdogTags (senderStep "t" "hi") =
        watchdogTags (senderStep "t" heartbeatPayload) := by
  refine ⟨rfl, rfl⟩

/-- Claim C3 as amended: for every dequeued message the sender publishes the
local echo, writes the sanitized line, and pushes the single fixed liveness
tag 'Message sent'; it never reads an acknowledgment line, and heartbeats are
not distinguished from user messages in the tag (src/chat_tools.py lines
133-138). -/
theorem c3_sender_fixed_tag_no_ack (now m : String) :
    senderStep now m =
      [Ev.msgPut (echoLine now m), Ev.wireWrite (sendWire m),
       Ev.watchdogPut "Message sent", Ev.sleepFor 0]
    ∧ (senderStep now m).filter isWireRead = []
    ∧ watchdogTags (senderStep now m) = ["Message sent"] :=
  ⟨rfl, rfl, rfl⟩

/-- Counterexample to claim C7: the empty heartbeat payload also produces a
local display record — the sender echoes every dequeued message, not only
non-empty ones. -/
theorem c7_counterexample_heartbeat_echoed :
    (senderStep "t" heartbeatPayload).filter isDisplayPut =
      [Ev.msgPut (echoLine "t" heartbeatPayload)] := rfl

/-- Claim C7 as amended: for every dequeued message — empty heartbeats
included — exactly one local display record is published, and it is published
strictly before the line is written to the outbound channel (src/chat_tools.py
lines 133-138). -/
theorem c7_echo_before_wire_write (now m : String) :
    ∃ i j, i < j
      ∧ (senderStep now m).get? i = some (Ev.msgPut (echoLine now m))
      ∧ (senderStep now m).get? j = some (Ev.wireWrite (sendWire m))
      ∧ ((senderStep now m).filter isDisplayPut).length = 1 :=
  ⟨0, 1, Nat.zero_lt_one, rfl, rfl, rfl⟩

/-- Counterexample to claim C6: with no token present the handshake does not
drive registration — it raises InvalidToken; its trace contains no wire write
(the empty-line 'new user' signal is never sent) and no token-store write. -/
theorem c6_counterexample_no_registration :
    (handshake none JsonReply.jnull).snd = Except.error Exc.invalidToken
    ∧ (handshake none JsonReply.jnull).fst.filter isTokenFileWrite = []
    ∧ (handshake none JsonReply.jnull).fst.filter
        (fun ev => match ev with | Ev.wireWrite _ => true | _ => false)
        = [] := by
  refine ⟨rfl, rfl, rfl⟩

/-- Claim C6 as amended: whenever no token is present, or the presented token
is rejected (null reply), the handshake shows a notice and raises
InvalidToken without driving registration and without writing the token
store; the separate register_user routine, when called, reads and discards one
line, sends the chosen display name, reads back the assigned record, and
persists that record via the token store (src/chat_tools.py lines 84-93 and
113-124). -/
theorem c6_invalid_token_instead_of_registration (reply : JsonReply)
    (tok userName record : String) :
    (handshake none reply).snd = Except.error Exc.invalidToken
    ∧ (handshake none reply).fst.filter isTokenFileWrite = []
    ∧ (handshake (some tok) JsonReply.jnull).snd =
        Except.error Exc.invalidToken
    ∧ (handshake (some tok) JsonReply.jnull).fst.filter isTokenFileWrite = []
    ∧ register_user userName record =
        [Ev.wireRead, Ev.logMsg, Ev.wireWrite (sendWire userName),
         Ev.wireRead, Ev.logMsg, Ev.tokenFileWrite record] :=
  ⟨rfl, rfl, rfl, rfl, rfl⟩

/-- Counterexample to claim C8: a handshake reply that fails to parse escapes
as the raw json.JSONDecodeError — not as InvalidToken — and that exception is
not caught by the supervisor either, so it crashes the process. -/
theorem c8_counterexample_parse_fault_escapes :
    (handshake (some "token") JsonReply.decodeFail).snd =
      Except.error Exc.jsonDecodeError
    ∧ Exc.jsonDecodeError ≠ Exc.invalidToken
    ∧ isTransientCaught Exc.jsonDecodeError = false
    ∧ mainProcess (some Exc.jsonDecodeError) =
        ProcessOutcome.crashed Exc.jsonDecodeError := by
  refine ⟨rfl, by decide, rfl, rfl⟩

/-- Claim C8 as amended: only an explicit null reply is mapped to
InvalidToken; a reply that does not parse raises json.JSONDecodeError and a
parsed record missing the nickname field raises KeyError, both uncaught by the
handshake, and the decode error crashes the process when it escapes
(src/chat_tools.py lines 74-81 and 119-126). -/
theorem c8_only_null_maps_to_invalid_token (tok : String)
    (fields : List (String × String))
    (h : fields.lookup "nickname" = none) :
    (handshake (some tok) JsonReply.jnull).snd = Except.error Exc.invalidToken
    ∧ (handshake (some tok) JsonReply.decodeFail).snd =
        Except.error Exc.jsonDecodeError
    ∧ (handshake (some tok) (JsonReply.jobj fields)).snd =
        Except.error Exc.keyError
    ∧ mainProcess (some Exc.jsonDecodeError) =
        ProcessOutcome.crashed Exc.jsonDecodeError := by
  refine ⟨rfl, rfl, ?_, rfl⟩
  simp [handshake, authorize_user, h]

/-- Witness for amended C8 at a record with no nickname field. -/
theorem c8_only_null_maps_to_invalid_token_witness :
    (handshake (some "tok") JsonReply.jnull).snd = Except.error Exc.invalidToken
    ∧ (handshake (some "tok") JsonReply.decodeFail).snd =
        Except.error Exc.jsonDecodeError
    ∧ (handshake (some "tok") (JsonReply.jobj [("account_hash", "abc")])).snd =
        Except.error Exc.keyError
    ∧ mainProcess (some Exc.jsonDecodeError) =
        ProcessOutcome.crashed Exc.jsonDecodeError :=
  c8_only_null_maps_to_invalid_token "tok" [("account_hash", "abc")] (by decide)

end ChatGui
